import Mathlib

/-! Evolution Todo: ESP32 configuration template.

A shallow embedding of `iot/esp32/config_template.h`.  The header is a list of
object-like preprocessor definitions.  Each integer definition becomes an `Int`
constant (a C decimal or hexadecimal literal that fits `int` has type `int`),
each string definition becomes a `String` constant, and the three topic
definitions, which the header writes as adjacent string literals
(`MQTT_TOPIC_BASE DEVICE_ID "/commands"`), become concatenations: adjacent
string literals are joined into one literal by the C translator.

`DEVICE_ID` is the one definition the topics are derived from, so next to the
constants of the template there is a version of each topic that takes the
device id as an argument; the template's topics are those at `DEVICE_ID`.
-/

namespace ConfigTemplate

/-! ## WiFi and MQTT configuration -/

def WIFI_SSID : String := "YOUR_WIFI_SSID"
def WIFI_PASSWORD : String := "YOUR_WIFI_PASSWORD"

def MQTT_BROKER : String := "your-cluster.hivemq.cloud"
def MQTT_PORT : Int := 8883
def MQTT_USERNAME : String := "your_username"
def MQTT_PASSWORD : String := "your_password"

/-! ## Device configuration -/

def DEVICE_ID : String := "esp32-home"
def DEVICE_NAME : String := "Home Controller"

/-! ## MQTT topics -/

def MQTT_TOPIC_BASE : String := "evolution-todo/devices/"

/-- Adjacent string literals `base id suffix`, joined left to right. -/
def buildTopic (base deviceId suffix : String) : String :=
  base ++ deviceId ++ suffix

/-- The body of `MQTT_TOPIC_COMMANDS` with `DEVICE_ID` defined as `deviceId`. -/
def topicCommands (deviceId : String) : String :=
  buildTopic MQTT_TOPIC_BASE deviceId "/commands"

/-- The body of `MQTT_TOPIC_STATUS` with `DEVICE_ID` defined as `deviceId`. -/
def topicStatus (deviceId : String) : String :=
  buildTopic MQTT_TOPIC_BASE deviceId "/status"

/-- The body of `MQTT_TOPIC_ACK` with `DEVICE_ID` defined as `deviceId`. -/
def topicAck (deviceId : String) : String :=
  buildTopic MQTT_TOPIC_BASE deviceId "/ack"

def MQTT_TOPIC_COMMANDS : String := topicCommands DEVICE_ID
def MQTT_TOPIC_STATUS : String := topicStatus DEVICE_ID
def MQTT_TOPIC_ACK : String := topicAck DEVICE_ID

/-- The three suffixes the header appends to the device id. -/
def TOPIC_SUFFIXES : List String := ["/commands", "/status", "/ack"]

/-! ## Hardware pin configuration -/

def RELAY_1_PIN : Int := 4
def RELAY_2_PIN : Int := 5
def RELAY_3_PIN : Int := 6
def RELAY_4_PIN : Int := 7

def LCD_SDA_PIN : Int := 8
def LCD_SCL_PIN : Int := 9
def LCD_ADDRESS : Int := 0x27

def LED_PIN : Int := 48

/-- The seven pin definitions, in the order of the header. -/
def ALL_PINS : List Int :=
  [RELAY_1_PIN, RELAY_2_PIN, RELAY_3_PIN, RELAY_4_PIN, LCD_SDA_PIN, LCD_SCL_PIN, LED_PIN]

/-! ## Device names -/

def RELAY_1_NAME : String := "Light"
def RELAY_2_NAME : String := "Fan"
def RELAY_3_NAME : String := "Aquarium"
def RELAY_4_NAME : String := "Relay 4"

/-! ## Timing configuration -/

def HEARTBEAT_INTERVAL_MS : Int := 60000
def SCHEDULE_CHECK_MS : Int := 1000
def LCD_UPDATE_MS : Int := 5000
def NTP_SYNC_INTERVAL_MS : Int := 3600000

/-! ## NTP configuration -/

def NTP_SERVER : String := "pool.ntp.org"
def GMT_OFFSET : Int := 18000
def DST_OFFSET : Int := 0

/-- The value a 32-bit signed `int` holds after `x` is stored in it (wrapping). -/
def wrapInt32 (x : Int) : Int :=
  (x + 2 ^ 31) % 2 ^ 32 - 2 ^ 31

/-! ## Taking a topic apart -/

/-- Remove the characters of `p` from the front of `s`, when `s` starts with them. -/
def stripFront : List Char → List Char → Option (List Char)
  | [], s => some s
  | _ :: _, [] => none
  | p :: ps, c :: cs => if p = c then stripFront ps cs else none

/-- Remove the characters of `q` from the end of `s`, when `s` ends with them. -/
def stripBack (q s : List Char) : Option (List Char) :=
  (stripFront q.reverse s.reverse).map List.reverse

/-- Recover the device id from a topic: strip the fixed base from the front, then
the given suffix from the end. -/
def parseTopic (suffix topic : String) : Option String :=
  (stripFront MQTT_TOPIC_BASE.data topic.data).bind fun rest =>
    (stripBack suffix.data rest).map String.mk

/-- Take a topic apart and put it together again from the recovered device id. -/
def rebuildTopic (suffix topic : String) : Option String :=
  (parseTopic suffix topic).map fun deviceId => buildTopic MQTT_TOPIC_BASE deviceId suffix

/-! ## Facts about lists of characters -/

theorem stripFront_append (p r : List Char) : stripFront p (p ++ r) = some r := by
  induction p with
  | nil => rfl
  | cons c cs ih => simp [stripFront, ih]

theorem stripBack_append (r q : List Char) : stripBack q (r ++ q) = some r := by
  simp [stripBack, stripFront_append]

theorem buildTopic_data (base d s : String) :
    (buildTopic base d s).data = base.data ++ d.data ++ s.data := by
  simp [buildTopic]

theorem parseTopic_buildTopic (d s : String) :
    parseTopic s (buildTopic MQTT_TOPIC_BASE d s) = some d := by
  simp [parseTopic, buildTopic_data, List.append_assoc, stripFront_append, stripBack_append]

/-- No string ends in two different suffixes of the header. -/
theorem suffix_unique (a b : List Char) (s t : String)
    (hs : s ∈ TOPIC_SUFFIXES) (ht : t ∈ TOPIC_SUFFIXES)
    (h : a ++ s.data = b ++ t.data) : s = t := by
  have hr := congrArg List.reverse h
  simp only [List.reverse_append] at hr
  simp only [TOPIC_SUFFIXES, List.mem_cons, List.mem_singleton, List.not_mem_nil,
    or_false] at hs ht
  rcases hs with rfl | rfl | rfl <;> rcases ht with rfl | rfl | rfl <;>
    first
    | rfl
    | (exfalso; simp at hr)

theorem buildTopic_inj (a b s t : String)
    (hs : s ∈ TOPIC_SUFFIXES) (ht : t ∈ TOPIC_SUFFIXES)
    (h : buildTopic MQTT_TOPIC_BASE a s = buildTopic MQTT_TOPIC_BASE b t) :
    a = b ∧ s = t := by
  have hd := congrArg String.data h
  simp only [buildTopic_data, List.append_assoc] at hd
  have hd2 := List.append_cancel_left hd
  rw [← List.append_assoc, ← List.append_assoc] at hd
  have hst : s = t := suffix_unique _ _ s t hs ht hd
  subst hst
  exact ⟨String.ext (List.append_cancel_right hd2), rfl⟩

/-! ## Topics -/

/-- C1: for every device id `d` the three topics are the base literal, then `d`,
then `/commands`, `/status` or `/ack`; each therefore starts with the base
literal immediately followed by `d`; and for the configured id `esp32-home`
they are the three literal strings listed. -/
theorem topics_are_base_id_suffix (d : String) :
    (topicCommands d = "evolution-todo/devices/" ++ d ++ "/commands" ∧
     topicStatus d = "evolution-todo/devices/" ++ d ++ "/status" ∧
     topicAck d = "evolution-todo/devices/" ++ d ++ "/ack") ∧
    (("evolution-todo/devices/" ++ d).data <+: (topicCommands d).data ∧
     ("evolution-todo/devices/" ++ d).data <+: (topicStatus d).data ∧
     ("evolution-todo/devices/" ++ d).data <+: (topicAck d).data) ∧
    (DEVICE_ID = "esp32-home" ∧
     MQTT_TOPIC_COMMANDS = "evolution-todo/devices/esp32-home/commands" ∧
     MQTT_TOPIC_STATUS = "evolution-todo/devices/esp32-home/status" ∧
     MQTT_TOPIC_ACK = "evolution-todo/devices/esp32-home/ack") := by
  refine ⟨⟨rfl, rfl, rfl⟩, ⟨?_, ?_, ?_⟩, ⟨rfl, ?_, ?_, ?_⟩⟩
  · exact ⟨"/commands".data, rfl⟩
  · exact ⟨"/status".data, rfl⟩
  · exact ⟨"/ack".data, rfl⟩
  · decide
  · decide
  · decide

/-- C4: for every device id `d`, stripping the base from the front of each of
the three topics and the suffix from its end gives back exactly `d`, and the
topic rebuilt from the recovered id is the original topic. -/
theorem topic_round_trip (d : String) :
    (parseTopic "/commands" (topicCommands d) = some d ∧
     parseTopic "/status" (topicStatus d) = some d ∧
     parseTopic "/ack" (topicAck d) = some d) ∧
    (rebuildTopic "/commands" (topicCommands d) = some (topicCommands d) ∧
     rebuildTopic "/status" (topicStatus d) = some (topicStatus d) ∧
     rebuildTopic "/ack" (topicAck d) = some (topicAck d)) := by
  simp [rebuildTopic, topicCommands, topicStatus, topicAck, parseTopic_buildTopic]

/-- C9: two topics are equal exactly when their device ids and their suffixes
are equal; so the three topics of one device differ from each other, and two
different device ids never share a commands, status or ack topic. -/
theorem topics_never_collide (a b s t : String)
    (hs : s ∈ TOPIC_SUFFIXES) (ht : t ∈ TOPIC_SUFFIXES) :
    ("evolution-todo/devices/" ++ a ++ s = "evolution-todo/devices/" ++ b ++ t ↔
      a = b ∧ s = t) ∧
    (buildTopic MQTT_TOPIC_BASE a s = buildTopic MQTT_TOPIC_BASE b t ↔ a = b ∧ s = t) ∧
    (topicCommands a ≠ topicStatus a ∧ topicCommands a ≠ topicAck a ∧
      topicStatus a ≠ topicAck a) ∧
    (a ≠ b → topicCommands a ≠ topicCommands b ∧ topicStatus a ≠ topicStatus b ∧
      topicAck a ≠ topicAck b) := by
  have key : ∀ (x y u v : String), u ∈ TOPIC_SUFFIXES → v ∈ TOPIC_SUFFIXES →
      (buildTopic MQTT_TOPIC_BASE x u = buildTopic MQTT_TOPIC_BASE y v ↔ x = y ∧ u = v) := by
    intro x y u v hu hv
    constructor
    · exact buildTopic_inj x y u v hu hv
    · rintro ⟨rfl, rfl⟩
      rfl
  have m1 : "/commands" ∈ TOPIC_SUFFIXES := by decide
  have m2 : "/status" ∈ TOPIC_SUFFIXES := by decide
  have m3 : "/ack" ∈ TOPIC_SUFFIXES := by decide
  refine ⟨key a b s t hs ht, key a b s t hs ht, ⟨?_, ?_, ?_⟩, ?_⟩
  · intro h
    exact absurd ((key a a _ _ m1 m2).1 h).2 (by decide)
  · intro h
    exact absurd ((key a a _ _ m1 m3).1 h).2 (by decide)
  · intro h
    exact absurd ((key a a _ _ m2 m3).1 h).2 (by decide)
  · intro hab
    refine ⟨?_, ?_, ?_⟩
    · intro h
      exact hab ((key a b _ _ m1 m1).1 h).1
    · intro h
      exact hab ((key a b _ _ m2 m2).1 h).1
    · intro h
      exact hab ((key a b _ _ m3 m3).1 h).1

/-- Witness for C9 at the ids `esp32-home` and `esp32-garage` with the suffixes
`/status` and `/ack`. -/
theorem topics_never_collide_witness :
    "/status" ∈ TOPIC_SUFFIXES ∧ "/ack" ∈ TOPIC_SUFFIXES ∧
    (buildTopic MQTT_TOPIC_BASE "esp32-home" "/status" =
        buildTopic MQTT_TOPIC_BASE "esp32-garage" "/ack" ↔
      "esp32-home" = "esp32-garage" ∧ "/status" = "/ack") ∧
    topicCommands "esp32-home" ≠ topicStatus "esp32-home" :=
  ⟨by decide, by decide,
   (topics_never_collide "esp32-home" "esp32-garage" "/status" "/ack"
      (by decide) (by decide)).2.1,
   (topics_never_collide "esp32-home" "esp32-garage" "/status" "/ack"
      (by decide) (by decide)).2.2.1.1⟩

/-! ## Pins and addresses -/

/-- C2: the seven pin constants are pairwise distinct. -/
theorem pins_pairwise_distinct :
    ALL_PINS = [RELAY_1_PIN, RELAY_2_PIN, RELAY_3_PIN, RELAY_4_PIN,
                LCD_SDA_PIN, LCD_SCL_PIN, LED_PIN] ∧
    List.Pairwise (fun p q => p ≠ q) ALL_PINS := by
  refine ⟨rfl, ?_⟩
  decide

/-- C5: the LCD address is one of the two documented addresses, 0x27 or 0x3F. -/
theorem lcd_address_documented : LCD_ADDRESS = 0x27 ∨ LCD_ADDRESS = 0x3F :=
  Or.inl rfl

/-- C6: the MQTT port is 8883, which lies between 1 and 65535. -/
theorem mqtt_port_valid : 1 ≤ MQTT_PORT ∧ MQTT_PORT ≤ 65535 ∧ MQTT_PORT = 8883 := by
  decide

/-! ## Timing -/

/-- C3: each of the four millisecond intervals is strictly positive. -/
theorem intervals_positive :
    0 < HEARTBEAT_INTERVAL_MS ∧ 0 < SCHEDULE_CHECK_MS ∧ 0 < LCD_UPDATE_MS ∧
    0 < NTP_SYNC_INTERVAL_MS := by
  decide

/-- C7: the GMT offset is five hours in seconds, 18000; the DST offset is 0; and
their sum, the total offset, is 18000 seconds. -/
theorem gmt_offset_utc_plus_five :
    GMT_OFFSET = 5 * 3600 ∧ GMT_OFFSET = 18000 ∧ DST_OFFSET = 0 ∧
    GMT_OFFSET + DST_OFFSET = 18000 := by
  decide

/-- C8: each interval is the documented period in milliseconds: 60 seconds, one
second, 5 seconds and one hour. -/
theorem intervals_match_comments :
    HEARTBEAT_INTERVAL_MS = 60 * 1000 ∧ SCHEDULE_CHECK_MS = 1 * 1000 ∧
    LCD_UPDATE_MS = 5 * 1000 ∧ NTP_SYNC_INTERVAL_MS = 60 * 60 * 1000 := by
  decide

/-- C10: each of the six integer timing constants lies between 0 and 2^31 - 1,
so reducing it modulo 2^32, or storing it in a signed 32-bit integer, leaves
the value written in the header. -/
theorem timing_constants_fit_int32 :
    (0 ≤ HEARTBEAT_INTERVAL_MS ∧ HEARTBEAT_INTERVAL_MS ≤ 2 ^ 31 - 1 ∧
      HEARTBEAT_INTERVAL_MS % 2 ^ 32 = 60000 ∧ wrapInt32 HEARTBEAT_INTERVAL_MS = 60000) ∧
    (0 ≤ SCHEDULE_CHECK_MS ∧ SCHEDULE_CHECK_MS ≤ 2 ^ 31 - 1 ∧
      SCHEDULE_CHECK_MS % 2 ^ 32 = 1000 ∧ wrapInt32 SCHEDULE_CHECK_MS = 1000) ∧
    (0 ≤ LCD_UPDATE_MS ∧ LCD_UPDATE_MS ≤ 2 ^ 31 - 1 ∧
      LCD_UPDATE_MS % 2 ^ 32 = 5000 ∧ wrapInt32 LCD_UPDATE_MS = 5000) ∧
    (0 ≤ NTP_SYNC_INTERVAL_MS ∧ NTP_SYNC_INTERVAL_MS ≤ 2 ^ 31 - 1 ∧
      NTP_SYNC_INTERVAL_MS % 2 ^ 32 = 3600000 ∧ wrapInt32 NTP_SYNC_INTERVAL_MS = 3600000) ∧
    (0 ≤ GMT_OFFSET ∧ GMT_OFFSET ≤ 2 ^ 31 - 1 ∧
      GMT_OFFSET % 2 ^ 32 = 18000 ∧ wrapInt32 GMT_OFFSET = 18000) ∧
    (0 ≤ DST_OFFSET ∧ DST_OFFSET ≤ 2 ^ 31 - 1 ∧
      DST_OFFSET % 2 ^ 32 = 0 ∧ wrapInt32 DST_OFFSET = 0) := by
  decide

end ConfigTemplate
